import Mathlib

/-!
Verification of the dataset-driven concurrent evaluation runner described by
the repository's tracing walkthrough (src/langchain/experimental/client/
tracing_datasets.ipynb).

The notebook's own code cells (the debug loop's error-absorbing helper, the
dataset-seeding loop) are embedded directly.  The runner itself,
arun_on_dataset, lives in langchain/client/runner_utils.py, which is outside
this excerpt: only its signature, docstring and call site appear in the
notebook.  Its behaviour is therefore modelled from the specification
(spec sections 3-8); every such definition carries a doc comment starting
with the words Modelled from the spec.
-/

set_option maxHeartbeats 1000000

namespace TracingDatasets

/-- String-keyed mapping used for example inputs, outputs and reference
outputs (Python dicts in the notebook; values modelled as strings). -/
abbrev KVMap := List (String × String)

/-! ## Debug loop (notebook cell 19537902, code under src/) -/

/-- The debug loop's error-absorbing helper, embedded from the notebook:

```
async def arun(agent, input_example):
    try:
        return await agent.arun(input_example)
    except Exception as e:
        return e
```

An agent is modelled as a function from an input string to
`Except String String`: `Except.error` models a raised exception, carrying
its description.  The helper catches any exception and returns it as an
ordinary value, so its own result type has no exceptional channel:
`Sum.inl` holds a caught exception object, `Sum.inr` a normal result. -/
def arunHelper (agentRun : String → Except String String) (input : String) :
    Sum String String :=
  match agentRun input with
  | Except.ok r => Sum.inr r
  | Except.error e => Sum.inl e

/-- The debug loop builds one `arun` coroutine per input and gathers them:

```
for input_example in inputs:
    results.append(arun(agent, input_example))
results = await asyncio.gather(*results)
```
-/
def gatherResults (agentRun : String → Except String String)
    (inputs : List String) : List (Sum String String) :=
  inputs.map (arunHelper agentRun)

/-! ## Dataset seeding from prior runs (notebook cell 17580c4b, code under src/) -/

/-- A run record as filtered by the seeding loop: its inputs and outputs,
whether it is a top-level run (execution order 1) and whether it errored. -/
structure DebugRun where
  inputs : KVMap
  outputs : KVMap
  execution_order : Nat
  error : Bool
deriving DecidableEq, Repr

/-- An example record as created by `client.create_example`. -/
structure CreatedExample where
  inputs : KVMap
  outputs : KVMap
  dataset_id : Nat
deriving DecidableEq, Repr

/-- Modelled from the spec: `list_runs(project_name, top_level_only,
exclude_errors)` of the Tracing/Recording Sink (section 6), whose
implementation is external to the excerpt.  The notebook calls it with
`execution_order=1` (only top-level runs) and `error=False` (only runs that
succeed); the model filters the sink's runs by those two fields. -/
def list_runs (allRuns : List DebugRun) (execution_order : Nat)
    (error : Bool) : List DebugRun :=
  allRuns.filter (fun r => r.execution_order == execution_order && r.error == error)

/-- The seeding loop, embedded from the notebook:

```
runs = client.list_runs(project_name=..., execution_order=1, error=False)
for run in runs:
    client.create_example(inputs=run.inputs, outputs=run.outputs, dataset_id=dataset.id)
```
-/
def seedDataset (allRuns : List DebugRun) (datasetId : Nat) :
    List CreatedExample :=
  (list_runs allRuns 1 false).map
    (fun r => { inputs := r.inputs, outputs := r.outputs, dataset_id := datasetId })

/-! ## Data model of the evaluation runner (spec sections 3-4)

The runner arun_on_dataset lives in langchain/client/runner_utils.py,
outside this excerpt; the notebook shows only its signature, docstring and
call.  Everything below is therefore modelled from the specification. -/

/-- Modelled from the spec: an Example row of a dataset (section 3). -/
structure Example where
  id : Nat
  inputs : KVMap
  reference_outputs : Option KVMap
deriving DecidableEq, Repr

/-- Modelled from the spec: the outcome of one pipeline invocation, a tagged
variant Success(outputs) or Failure(error_description) (section 3). -/
inductive Outcome where
  | success (outputs : KVMap)
  | failure (description : String)
deriving DecidableEq, Repr

/-- Modelled from the spec: a Run record (section 3). -/
structure Run where
  id : Nat
  example_id : Nat
  repetition_index : Nat
  project_name : String
  inputs : KVMap
  outcome : Outcome
deriving DecidableEq, Repr

/-- A stateful pipeline: a private initial state and an invocation that may
read and update it or raise (the notebook: chains "can have memory"). -/
structure Pipeline (σ : Type) where
  init : σ
  invoke : σ → KVMap → Except String (KVMap × σ)

/-- Modelled from the spec: a Feedback record (section 3; the surrogate id
field, which no claim mentions, is omitted). -/
structure Feedback where
  run_id : Nat
  evaluator_name : String
  score : Option Int
  value : Option String
  comment : Option String
deriving DecidableEq, Repr

/-- The payload an evaluator computes; the runner attaches run id and
evaluator name when it builds the Feedback record. -/
structure FeedbackData where
  score : Option Int
  value : Option String
  comment : Option String
deriving DecidableEq, Repr

/-- Modelled from the spec: an evaluator is a named pure function of
(run, example) that may raise (section 3, section 4.3). -/
structure Evaluator where
  name : String
  evaluate : Run → Example → Except String FeedbackData

/-- What the runner reports to the Sink for one (run, evaluator) pair:
either a Feedback record or a logged evaluator-level error. -/
inductive EvalRecord where
  | feedback (fb : Feedback)
  | evalError (run_id : Nat) (evaluator_name : String) (description : String)
deriving DecidableEq, Repr

/-- Modelled from the spec (section 4, step 4): one work item obtains a
fresh pipeline from the factory, invokes it from that fresh instance's
initial state on the example's inputs, and converts a normal return into
Success and any raised error into Failure. -/
def itemOutcome {σ : Type} (factory : Unit → Pipeline σ) (ex : Example) :
    Outcome :=
  let p := factory ()
  match p.invoke p.init ex.inputs with
  | Except.ok res => Outcome.success res.1
  | Except.error e => Outcome.failure e

/-- Modelled from the spec: the num_repetitions runs of a single example,
with consecutive run ids starting at firstId; repetition_index ranges over
[0, numReps). -/
def runsForExample {σ : Type} (factory : Unit → Pipeline σ) (pname : String)
    (firstId : Nat) (ex : Example) (numReps : Nat) : List Run :=
  (List.range numReps).map (fun rep =>
    { id := firstId + rep, example_id := ex.id, repetition_index := rep,
      project_name := pname, inputs := ex.inputs,
      outcome := itemOutcome factory ex })

/-- Modelled from the spec (section 4, step 2): the full work-item list in
dataset order then repetition order, each item executed per step 4; run
ids are assigned consecutively from firstId. -/
def buildRunsFrom {σ : Type} (factory : Unit → Pipeline σ) (pname : String)
    (numReps : Nat) : Nat → List Example → List Run
  | _, [] => []
  | firstId, ex :: rest =>
      runsForExample factory pname firstId ex numReps ++
      buildRunsFrom factory pname numReps (firstId + numReps) rest

/-- All runs of a batch, ids starting at 0. -/
def buildRuns {σ : Type} (factory : Unit → Pipeline σ) (pname : String)
    (examples : List Example) (numReps : Nat) : List Run :=
  buildRunsFrom factory pname numReps 0 examples

/-- Modelled from the spec (section 4 step 6, section 5): aggregation is
keyed by (example_id, repetition_index); each example contributes the
ordered sequence of its per-repetition outcomes. -/
def aggregateOutputs (runs : List Run) (examples : List Example)
    (numReps : Nat) : List (Nat × List Outcome) :=
  examples.map (fun ex => (ex.id, (List.range numReps).map (fun rep =>
    match runs.find? (fun r =>
        r.example_id == ex.id && r.repetition_index == rep) with
    | some r => r.outcome
    | none => Outcome.failure "missing run")))

/-- Modelled from the spec (section 4, step 5): for successful runs only,
every evaluator is applied to (run, example); an evaluator raising is
recorded as a per-(run, evaluator) error record and does not affect the
others.  A failed run yields no records at all. -/
def evaluateRun (evaluators : List Evaluator) (run : Run) (ex : Example) :
    List EvalRecord :=
  match run.outcome with
  | Outcome.failure _ => []
  | Outcome.success _ =>
    evaluators.map (fun ev =>
      match ev.evaluate run ex with
      | Except.ok fd => EvalRecord.feedback
          { run_id := run.id, evaluator_name := ev.name,
            score := fd.score, value := fd.value, comment := fd.comment }
      | Except.error d => EvalRecord.evalError run.id ev.name d)

/-- All evaluation records of a batch: each run paired with its example. -/
def evalRecordsFor (evaluators : List Evaluator) (examples : List Example)
    (runs : List Run) : List EvalRecord :=
  runs.flatMap (fun r =>
    match examples.find? (fun ex => ex.id == r.example_id) with
    | some ex => evaluateRun evaluators r ex
    | none => [])

/-- Modelled from the spec (section 6): resolving a dataset name through the
Example Source. -/
def resolveDataset (datasets : List (String × List Example)) (name : String) :
    Option (List Example) :=
  (datasets.find? (fun d => d.1 == name)).map (fun d => d.2)

/-- The generated default project name, from the arun_on_dataset docstring
shown in the notebook: Defaults to
`{dataset_name}-{chain class name}-{datetime}`. -/
def genProjectName (datasetName chainTypeName datetime : String) : String :=
  datasetName ++ "-" ++ chainTypeName ++ "-" ++ datetime

/-- The project name a batch runs under: the supplied one, else generated. -/
def usedProjectName (project_name : Option String)
    (datasetName chainTypeName datetime : String) : String :=
  project_name.getD (genProjectName datasetName chainTypeName datetime)

/-- Modelled from the spec (section 7): the errors that propagate to the
caller, dataset resolution failure and project-name collision. -/
inductive RunnerError where
  | datasetNotFound (name : String)
  | projectExists (name : String)
deriving DecidableEq, Repr

/-- Modelled from the spec (section 4, step 6): the returned BatchResult. -/
structure BatchResult where
  project_name : String
  outputs : List (Nat × List Outcome)
deriving DecidableEq, Repr

/-- Everything a batch reports to the Tracing/Recording Sink. -/
structure SinkLog where
  runs : List Run
  records : List EvalRecord
deriving DecidableEq, Repr

/-- Modelled from the spec: the runner arun_on_dataset
(langchain/client/runner_utils.py is outside the excerpt; the notebook
shows only its signature and docstring).  datasets and existingProjects
stand for the external services' observable state; chainTypeName and
datetime feed the generated project name.  concurrency_level bounds
scheduling but cannot change the aggregated result (spec section 3 step 3);
the bounded scheduler itself is modelled by SchedStep below. -/
def arun_on_dataset {σ : Type} (datasets : List (String × List Example))
    (existingProjects : List String) (dataset_name : String)
    (factory : Unit → Pipeline σ) (chainTypeName datetime : String)
    (concurrency_level num_repetitions : Nat) (project_name : Option String)
    (evaluators : List Evaluator) :
    Except RunnerError (BatchResult × SinkLog) :=
  match resolveDataset datasets dataset_name with
  | none => Except.error (RunnerError.datasetNotFound dataset_name)
  | some examples =>
    let pname := usedProjectName project_name dataset_name chainTypeName datetime
    if existingProjects.contains pname then
      Except.error (RunnerError.projectExists pname)
    else
      Except.ok
        ({ project_name := pname,
           outputs := aggregateOutputs
             (buildRuns factory pname examples num_repetitions) examples
             num_repetitions },
         { runs := buildRuns factory pname examples num_repetitions,
           records := evalRecordsFor evaluators examples
             (buildRuns factory pname examples num_repetitions) })

/-- Modelled from the spec (section 4.3): the reference-comparison (qa)
evaluator requires example.reference_outputs; absence is an
evaluator-level error, recorded as such. -/
def qaEvaluator : Evaluator :=
  { name := "qa",
    evaluate := fun run ex =>
      match ex.reference_outputs with
      | none => Except.error "example has no reference_outputs"
      | some refs =>
        match run.outcome with
        | Outcome.success outs =>
            Except.ok { score := some (if outs == refs then 1 else 0),
                        value := none, comment := none }
        | Outcome.failure d => Except.error d }

/-- True on Failure outcomes; used to count failed runs in concrete
batches. -/
def isFailureOutcome : Outcome → Bool
  | Outcome.failure _ => true
  | Outcome.success _ => false

/-! ## Concrete pipelines and evaluators used in concrete batches -/

/-- Echo pipeline: a stateless pipeline returning its inputs unchanged. -/
def echoFactory : Unit → Pipeline Unit :=
  fun _ => { init := (), invoke := fun s inp => Except.ok (inp, s) }

/-- Pipeline that raises on the input value "boom" and echoes otherwise. -/
def boomFactory : Unit → Pipeline Unit :=
  fun _ => { init := (), invoke := fun s inp =>
    if inp == [("q", "boom")] then Except.error "boom"
    else Except.ok (inp, s) }

/-- Pipeline whose every invocation raises. -/
def alwaysFailFactory : Unit → Pipeline Unit :=
  fun _ => { init := (), invoke := fun _ _ => Except.error "x" }

/-- Stateful pipeline carrying a mutable counter: it reports the counter it
observes and increments it.  A fresh instance observes counter 0. -/
def counterFactory : Unit → Pipeline Nat :=
  fun _ => { init := 0, invoke := fun c inp =>
    Except.ok ([("counter", toString c)] ++ inp, c + 1) }

/-- Ten-example dataset on which exactly item 3 makes boomFactory raise. -/
def tenExamples : List Example :=
  (List.range 10).map (fun i =>
    { id := i, inputs := [("q", if i == 3 then "boom" else "ok")],
      reference_outputs := none })

/-- An evaluator that always returns a feedback payload. -/
def okEvaluator : Evaluator :=
  { name := "ok", evaluate := fun _ _ =>
      Except.ok { score := some 1, value := none, comment := none } }

/-- The two-example calculator dataset of the spec's example scenario. -/
def calcExamples : List Example :=
  [{ id := 0, inputs := [("q", "2+2")], reference_outputs := none },
   { id := 1, inputs := [("q", "3+3")], reference_outputs := none }]

/-- The batch result of running the echo pipeline twice per example on the
calculator dataset: 2 examples x 2 repetitions, all Success. -/
def calcBatchResult : BatchResult :=
  { project_name := "p",
    outputs := [(0, [Outcome.success [("q", "2+2")],
                     Outcome.success [("q", "2+2")]]),
                (1, [Outcome.success [("q", "3+3")],
                     Outcome.success [("q", "3+3")]])] }

/-- The sink log of that same batch: four runs, no evaluation records. -/
def calcSinkLog : SinkLog :=
  { runs := [{ id := 0, example_id := 0, repetition_index := 0,
               project_name := "p", inputs := [("q", "2+2")],
               outcome := Outcome.success [("q", "2+2")] },
             { id := 1, example_id := 0, repetition_index := 1,
               project_name := "p", inputs := [("q", "2+2")],
               outcome := Outcome.success [("q", "2+2")] },
             { id := 2, example_id := 1, repetition_index := 0,
               project_name := "p", inputs := [("q", "3+3")],
               outcome := Outcome.success [("q", "3+3")] },
             { id := 3, example_id := 1, repetition_index := 1,
               project_name := "p", inputs := [("q", "3+3")],
               outcome := Outcome.success [("q", "3+3")] }],
    records := [] }

/-- One-example dataset run with the always-failing pipeline. -/
def failExamples : List Example :=
  [{ id := 0, inputs := [("q", "x")], reference_outputs := none }]

/-- Batch result of that failing batch: one entry, one Failure outcome. -/
def failBatchResult : BatchResult :=
  { project_name := "p", outputs := [(0, [Outcome.failure "x"])] }

/-- Sink log of that failing batch: one failed run, no records. -/
def failSinkLog : SinkLog :=
  { runs := [{ id := 0, example_id := 0, repetition_index := 0,
               project_name := "p", inputs := [("q", "x")],
               outcome := Outcome.failure "x" }],
    records := [] }

/-- A blank example without reference outputs. -/
def blankExample : Example :=
  { id := 0, inputs := [], reference_outputs := none }

/-- A successful run used to exercise evaluators. -/
def successRun : Run :=
  { id := 5, example_id := 0, repetition_index := 0, project_name := "p",
    inputs := [], outcome := Outcome.success [("a", "4")] }

/-! ## Bounded-concurrency scheduler (spec section 5) -/

/-- Modelled from the spec (section 5): a work item is an
(example_id, repetition_index) pair; the scheduler state tracks items not
yet started, items whose pipeline invocation is in flight, and finished
items. -/
structure SchedState where
  pending : List (Nat × Nat)
  running : List (Nat × Nat)
  done : List (Nat × Nat)
deriving DecidableEq, Repr

/-- The scheduler's starting state: all work items pending, none in flight. -/
def schedInit (items : List (Nat × Nat)) : SchedState :=
  { pending := items, running := [], done := [] }

/-- Modelled from the spec (section 5): the bounded-concurrency scheduler as
a step relation.  An item may start only when fewer than c invocations are
in flight (otherwise it waits); any in-flight item may finish at any time
(no completion-order guarantee). -/
inductive SchedStep (c : Nat) : SchedState → SchedState → Prop where
  | start (w : Nat × Nat) (s : SchedState) (hw : w ∈ s.pending)
      (hc : s.running.length < c) :
      SchedStep c s { pending := s.pending.erase w,
                      running := w :: s.running, done := s.done }
  | finish (w : Nat × Nat) (s : SchedState) (hw : w ∈ s.running) :
      SchedStep c s { pending := s.pending,
                      running := s.running.erase w, done := w :: s.done }

/-- The states a batch execution can reach from the all-pending start. -/
inductive SchedReachable (c : Nat) (items : List (Nat × Nat)) :
    SchedState → Prop where
  | refl : SchedReachable c items (schedInit items)
  | step {s t : SchedState} (hs : SchedReachable c items s)
      (hst : SchedStep c s t) : SchedReachable c items t

end TracingDatasets

namespace TracingDatasets

/-! ## Helper lemmas about the run list and aggregation -/

/-- find? on a range locates the sought index. -/
theorem find?_range_eq_some (n rep : Nat) (h : rep < n) :
    (List.range n).find? (fun k => k == rep) = some rep := by
  induction n with
  | zero => omega
  | succ m ih =>
    rw [List.range_succ, List.find?_append]
    rcases Nat.lt_succ_iff_lt_or_eq.mp h with h2 | h2
    · rw [ih h2]; rfl
    · subst h2
      have hnone : (List.range rep).find? (fun k => k == rep) = none := by
        rw [List.find?_eq_none]
        intro x hx
        simp only [beq_iff_eq]
        exact Nat.ne_of_lt (List.mem_range.mp hx)
      rw [hnone]
      simp

/-- Within one example's repetition block, the run for repetition rep is
found by the aggregation key. -/
theorem runsForExample_find? {σ : Type} (factory : Unit → Pipeline σ)
    (pn : String) (firstId : Nat) (ex : Example) (numReps rep : Nat)
    (h : rep < numReps) :
    (runsForExample factory pn firstId ex numReps).find?
      (fun r => r.example_id == ex.id && r.repetition_index == rep) =
    some { id := firstId + rep, example_id := ex.id, repetition_index := rep,
           project_name := pn, inputs := ex.inputs,
           outcome := itemOutcome factory ex } := by
  unfold runsForExample
  rw [List.find?_map]
  have hcomp :
      ((fun r : Run => r.example_id == ex.id && r.repetition_index == rep) ∘
        (fun k => ({ id := firstId + k, example_id := ex.id,
                     repetition_index := k, project_name := pn,
                     inputs := ex.inputs,
                     outcome := itemOutcome factory ex } : Run))) =
      fun k => k == rep := by
    funext k
    simp
  rw [hcomp, find?_range_eq_some _ _ h]
  rfl

/-- A different example's repetition block never matches the key. -/
theorem runsForExample_find?_ne {σ : Type} (factory : Unit → Pipeline σ)
    (pn : String) (firstId : Nat) (ex ex2 : Example) (numReps rep : Nat)
    (hne : ex.id ≠ ex2.id) :
    (runsForExample factory pn firstId ex numReps).find?
      (fun r => r.example_id == ex2.id && r.repetition_index == rep) = none := by
  rw [List.find?_eq_none]
  intro r hr
  rcases List.mem_map.mp hr with ⟨k, _, hk⟩
  subst hk
  simp [hne]

/-- The aggregation key finds, in the batch's run list, the run of the
sought example and repetition, carrying that example's own outcome. -/
theorem buildRunsFrom_find? {σ : Type} (factory : Unit → Pipeline σ)
    (pn : String) (numReps : Nat) (examples : List Example) (firstId : Nat)
    (hnodup : (examples.map Example.id).Nodup) (ex : Example)
    (hmem : ex ∈ examples) (rep : Nat) (h : rep < numReps) :
    ∃ base : Nat,
      (buildRunsFrom factory pn numReps firstId examples).find?
        (fun r => r.example_id == ex.id && r.repetition_index == rep) =
      some { id := base + rep, example_id := ex.id, repetition_index := rep,
             project_name := pn, inputs := ex.inputs,
             outcome := itemOutcome factory ex } := by
  induction examples generalizing firstId with
  | nil => cases hmem
  | cons hd tl ih =>
    rw [List.map_cons, List.nodup_cons] at hnodup
    rcases List.mem_cons.mp hmem with rfl | hmem2
    · refine ⟨firstId, ?_⟩
      unfold buildRunsFrom
      rw [List.find?_append, runsForExample_find? factory pn firstId ex numReps rep h]
      rfl
    · have hne : hd.id ≠ ex.id := by
        intro heq
        exact hnodup.1 (heq ▸ List.mem_map_of_mem Example.id hmem2)
      rcases ih (firstId + numReps) hnodup.2 hmem2 with ⟨base, hbase⟩
      refine ⟨base, ?_⟩
      unfold buildRunsFrom
      rw [List.find?_append,
        runsForExample_find?_ne factory pn firstId hd ex numReps rep hne,
        Option.none_or, hbase]

/-- Each example's entry in the aggregated outputs is the ordered sequence
of its own per-repetition outcomes, every one of them the outcome of a
fresh invocation of that example. -/
theorem aggregateOutputs_entry {σ : Type} (factory : Unit → Pipeline σ)
    (pn : String) (examples : List Example) (numReps : Nat)
    (hnodup : (examples.map Example.id).Nodup) (ex : Example)
    (hmem : ex ∈ examples) :
    (ex.id, (List.range numReps).map (fun _ => itemOutcome factory ex)) ∈
      aggregateOutputs (buildRuns factory pn examples numReps) examples
        numReps := by
  unfold aggregateOutputs
  have hentry :
      (fun ex2 : Example => (ex2.id, (List.range numReps).map (fun rep =>
        match (buildRuns factory pn examples numReps).find? (fun r =>
            r.example_id == ex2.id && r.repetition_index == rep) with
        | some r => r.outcome
        | none => Outcome.failure "missing run"))) ex =
      (ex.id, (List.range numReps).map (fun _ => itemOutcome factory ex)) := by
    refine Prod.ext rfl ?_
    refine List.map_congr_left ?_
    intro rep hrep
    rcases buildRunsFrom_find? factory pn numReps examples 0 hnodup ex hmem rep
      (List.mem_range.mp hrep) with ⟨base, hbase⟩
    rw [show buildRuns factory pn examples numReps =
        buildRunsFrom factory pn numReps 0 examples from rfl, hbase]
  exact hentry ▸ List.mem_map_of_mem _ hmem

/-- The aggregated outputs have one entry per example. -/
theorem aggregateOutputs_length (runs : List Run) (examples : List Example)
    (numReps : Nat) :
    (aggregateOutputs runs examples numReps).length = examples.length :=
  List.length_map examples _

/-- Every entry of the aggregated outputs holds exactly numReps outcomes. -/
theorem aggregateOutputs_entry_length (runs : List Run)
    (examples : List Example) (numReps : Nat) :
    ∀ e ∈ aggregateOutputs runs examples numReps, e.2.length = numReps := by
  intro e he
  rcases List.mem_map.mp he with ⟨ex, _, hex⟩
  subst hex
  simp

/-- The ids of a batch's runs are consecutive from firstId. -/
theorem buildRunsFrom_map_id {σ : Type} (factory : Unit → Pipeline σ)
    (pn : String) (numReps : Nat) (examples : List Example) (firstId : Nat) :
    (buildRunsFrom factory pn numReps firstId examples).map Run.id =
      List.range' firstId (examples.length * numReps) := by
  induction examples generalizing firstId with
  | nil => simp [buildRunsFrom]
  | cons hd tl ih =>
    unfold buildRunsFrom
    rw [List.map_append, ih (firstId + numReps)]
    have h1 : (runsForExample factory pn firstId hd numReps).map Run.id =
        List.range' firstId numReps := by
      unfold runsForExample
      rw [List.map_map, List.range'_eq_map_range]
      rfl
    have h2 : List.range' firstId numReps ++
        List.range' (firstId + numReps) (tl.length * numReps) =
        List.range' firstId (tl.length * numReps + numReps) := by
      have h3 := List.range'_append firstId numReps (tl.length * numReps) 1
      simp only [one_mul] at h3
      exact h3
    rw [h1, h2]
    congr 1
    simp [Nat.succ_mul]

/-- Run ids within a batch are pairwise distinct. -/
theorem buildRuns_id_nodup {σ : Type} (factory : Unit → Pipeline σ)
    (pn : String) (examples : List Example) (numReps : Nat) :
    ((buildRuns factory pn examples numReps).map Run.id).Nodup := by
  rw [buildRuns, buildRunsFrom_map_id]
  exact List.nodup_range' 0 _

/-- Two runs of one batch with the same id are the same run. -/
theorem buildRuns_id_inj {σ : Type} (factory : Unit → Pipeline σ)
    (pn : String) (examples : List Example) (numReps : Nat) {r1 r2 : Run}
    (h1 : r1 ∈ buildRuns factory pn examples numReps)
    (h2 : r2 ∈ buildRuns factory pn examples numReps) (hid : r1.id = r2.id) :
    r1 = r2 :=
  List.inj_on_of_nodup_map (buildRuns_id_nodup factory pn examples numReps)
    h1 h2 hid

/-- A feedback record produced while evaluating a run carries that run's id
and is only produced when the run succeeded. -/
theorem evaluateRun_feedback_inv (evaluators : List Evaluator) (run : Run)
    (ex : Example) (fb : Feedback)
    (hrec : EvalRecord.feedback fb ∈ evaluateRun evaluators run ex) :
    fb.run_id = run.id ∧ ∃ outs, run.outcome = Outcome.success outs := by
  unfold evaluateRun at hrec
  cases hout : run.outcome with
  | failure d => rw [hout] at hrec; cases hrec
  | success outs =>
    rw [hout] at hrec
    rcases List.mem_map.mp hrec with ⟨ev, _, hev⟩
    refine ⟨?_, outs, rfl⟩
    cases hcall : ev.evaluate run ex with
    | ok fd =>
      rw [hcall] at hev
      cases hev
      rfl
    | error d =>
      rw [hcall] at hev
      cases hev

/-- Every feedback record of a batch belongs to a successful run of the
batch. -/
theorem evalRecordsFor_feedback_inv (evaluators : List Evaluator)
    (examples : List Example) (runs : List Run) (fb : Feedback)
    (hrec : EvalRecord.feedback fb ∈ evalRecordsFor evaluators examples runs) :
    ∃ r ∈ runs, fb.run_id = r.id ∧ ∃ outs, r.outcome = Outcome.success outs := by
  unfold evalRecordsFor at hrec
  rcases List.mem_flatMap.mp hrec with ⟨r, hr, hin⟩
  refine ⟨r, hr, ?_⟩
  cases hfind : examples.find? (fun ex2 => ex2.id == r.example_id) with
  | none => rw [hfind] at hin; cases hin
  | some ex2 =>
    rw [hfind] at hin
    exact evaluateRun_feedback_inv evaluators r ex2 fb hin

/-- A batch whose dataset resolves and whose project name is fresh succeeds
and returns exactly the aggregated outputs, runs and evaluation records. -/
theorem arun_on_dataset_ok {σ : Type} (datasets : List (String × List Example))
    (existingProjects : List String) (dataset_name : String)
    (factory : Unit → Pipeline σ) (chainTypeName datetime : String)
    (concurrency_level num_repetitions : Nat) (project_name : Option String)
    (evaluators : List Evaluator) (examples : List Example)
    (hres : resolveDataset datasets dataset_name = some examples)
    (hcol : existingProjects.contains
      (usedProjectName project_name dataset_name chainTypeName datetime) = false) :
    arun_on_dataset datasets existingProjects dataset_name factory
      chainTypeName datetime concurrency_level num_repetitions project_name
      evaluators =
    Except.ok
      ({ project_name :=
           usedProjectName project_name dataset_name chainTypeName datetime,
         outputs := aggregateOutputs
           (buildRuns factory
             (usedProjectName project_name dataset_name chainTypeName datetime)
             examples num_repetitions) examples num_repetitions },
       { runs := buildRuns factory
           (usedProjectName project_name dataset_name chainTypeName datetime)
           examples num_repetitions,
         records := evalRecordsFor evaluators examples
           (buildRuns factory
             (usedProjectName project_name dataset_name chainTypeName datetime)
             examples num_repetitions) }) := by
  have hmemf : usedProjectName project_name dataset_name chainTypeName datetime ∉
      existingProjects := by
    simpa using hcol
  simp [arun_on_dataset, hres, hmemf]

/-- Inverting a successful batch into its components. -/
theorem arun_on_dataset_ok_inv {σ : Type}
    (datasets : List (String × List Example)) (existingProjects : List String)
    (dataset_name : String) (factory : Unit → Pipeline σ)
    (chainTypeName datetime : String)
    (concurrency_level num_repetitions : Nat) (project_name : Option String)
    (evaluators : List Evaluator) (br : BatchResult) (log : SinkLog)
    (h : arun_on_dataset datasets existingProjects dataset_name factory
      chainTypeName datetime concurrency_level num_repetitions project_name
      evaluators = Except.ok (br, log)) :
    ∃ examples, resolveDataset datasets dataset_name = some examples ∧
      br.project_name =
        usedProjectName project_name dataset_name chainTypeName datetime ∧
      log.runs = buildRuns factory br.project_name examples num_repetitions ∧
      log.records = evalRecordsFor evaluators examples log.runs ∧
      br.outputs = aggregateOutputs log.runs examples num_repetitions := by
  cases hres : resolveDataset datasets dataset_name with
  | none => simp [arun_on_dataset, hres] at h
  | some examples =>
    refine ⟨examples, rfl, ?_⟩
    cases hcol : existingProjects.contains
        (usedProjectName project_name dataset_name chainTypeName datetime) with
    | true =>
      have hmem : usedProjectName project_name dataset_name chainTypeName
          datetime ∈ existingProjects := by
        simpa using hcol
      simp [arun_on_dataset, hres, hmem] at h
    | false =>
      rw [arun_on_dataset_ok datasets existingProjects dataset_name factory
        chainTypeName datetime concurrency_level num_repetitions project_name
        evaluators examples hres hcol] at h
      injection h with hpair
      injection hpair with hbr hlog
      subst hbr
      subst hlog
      exact ⟨rfl, rfl, rfl, rfl⟩

/-- C9: for every input string, the helper arun returns either the agent's
normal result or the raised exception object itself, so the gather over all
inputs completes with exactly one result per input and never propagates an
exception to the caller. -/
theorem arun_absorbs_exceptions (agentRun : String → Except String String)
    (inputs : List String) :
    (gatherResults agentRun inputs).length = inputs.length ∧
    ∀ input ∈ inputs,
      arunHelper agentRun input ∈ gatherResults agentRun inputs ∧
      ((∃ r, agentRun input = Except.ok r ∧ arunHelper agentRun input = Sum.inr r) ∨
       (∃ e, agentRun input = Except.error e ∧ arunHelper agentRun input = Sum.inl e)) := by
  refine ⟨List.length_map _ _, fun input hmem => ⟨List.mem_map_of_mem _ hmem, ?_⟩⟩
  cases h : agentRun input with
  | ok r => exact Or.inl ⟨r, rfl, by simp [arunHelper, h]⟩
  | error e => exact Or.inr ⟨e, rfl, by simp [arunHelper, h]⟩

/-- Witness for C9 at a concrete agent (raises on the string "boom") and a
concrete two-element input list. -/
theorem arun_absorbs_exceptions_witness :
    "boom" ∈ ["ok", "boom"] ∧
    ((∃ r, (fun s => if s = "boom" then (Except.error "err" : Except String String)
            else Except.ok s) "boom" = Except.ok r ∧
        arunHelper (fun s => if s = "boom" then Except.error "err" else Except.ok s)
          "boom" = Sum.inr r) ∨
     (∃ e, (fun s => if s = "boom" then (Except.error "err" : Except String String)
            else Except.ok s) "boom" = Except.error e ∧
        arunHelper (fun s => if s = "boom" then Except.error "err" else Except.ok s)
          "boom" = Sum.inl e)) :=
  ⟨by decide,
   ((arun_absorbs_exceptions
      (fun s => if s = "boom" then Except.error "err" else Except.ok s)
      ["ok", "boom"]).2 "boom" (by decide)).2⟩

/-- C10: when the dataset is seeded from prior runs, only runs with
execution_order = 1 and error = false are turned into examples, so every
example created carries inputs and outputs taken from a successful
top-level run. -/
theorem seeded_examples_from_successful_top_level_runs
    (allRuns : List DebugRun) (datasetId : Nat) (ex : CreatedExample)
    (hmem : ex ∈ seedDataset allRuns datasetId) :
    ∃ r ∈ allRuns, r.execution_order = 1 ∧ r.error = false ∧
      ex.inputs = r.inputs ∧ ex.outputs = r.outputs := by
  rcases List.mem_map.mp hmem with ⟨r, hr, hex⟩
  rcases List.mem_filter.mp hr with ⟨hrall, hpred⟩
  refine ⟨r, hrall, ?_, ?_, ?_, ?_⟩
  · have := (Bool.and_eq_true _ _).mp hpred |>.1
    simpa using this
  · have := (Bool.and_eq_true _ _).mp hpred |>.2
    simpa using this
  · rw [← hex]
  · rw [← hex]

/-- Witness for C10: a concrete sink with one qualifying run and one errored
run; the single created example indeed comes from the successful
top-level run. -/
theorem seeded_examples_witness :
    ({ inputs := [("q", "2+2")], outputs := [("a", "4")], dataset_id := 7 } :
        CreatedExample) ∈
      seedDataset
        [{ inputs := [("q", "2+2")], outputs := [("a", "4")],
           execution_order := 1, error := false },
         { inputs := [("q", "3+3")], outputs := [], execution_order := 1,
           error := true }] 7 ∧
    ∃ r ∈ [({ inputs := [("q", "2+2")], outputs := [("a", "4")],
              execution_order := 1, error := false } : DebugRun),
           { inputs := [("q", "3+3")], outputs := [], execution_order := 1,
             error := true }],
      r.execution_order = 1 ∧ r.error = false ∧
      ([("q", "2+2")] : KVMap) = r.inputs ∧ ([("a", "4")] : KVMap) = r.outputs :=
  ⟨by decide,
   seeded_examples_from_successful_top_level_runs
     [{ inputs := [("q", "2+2")], outputs := [("a", "4")],
        execution_order := 1, error := false },
      { inputs := [("q", "3+3")], outputs := [], execution_order := 1,
        error := true }] 7
     { inputs := [("q", "2+2")], outputs := [("a", "4")], dataset_id := 7 }
     (by decide)⟩

/-- C1: for every evaluation batch the Runner completes, the returned
BatchResult.outputs mapping has exactly one entry per enumerated example,
and each entry holds exactly num_repetitions per-repetition outcomes —
for every pipeline factory, in particular however many invocations fail. -/
theorem batch_outputs_cover_every_example {σ : Type}
    (datasets : List (String × List Example)) (existingProjects : List String)
    (dataset_name : String) (factory : Unit → Pipeline σ)
    (chainTypeName datetime : String)
    (concurrency_level num_repetitions : Nat) (project_name : Option String)
    (evaluators : List Evaluator) (examples : List Example)
    (br : BatchResult) (log : SinkLog)
    (hres : resolveDataset datasets dataset_name = some examples)
    (h : arun_on_dataset datasets existingProjects dataset_name factory
      chainTypeName datetime concurrency_level num_repetitions project_name
      evaluators = Except.ok (br, log)) :
    br.outputs.length = examples.length ∧
    ∀ e ∈ br.outputs, e.2.length = num_repetitions := by
  rcases arun_on_dataset_ok_inv datasets existingProjects dataset_name factory
    chainTypeName datetime concurrency_level num_repetitions project_name
    evaluators br log h with ⟨examples2, hres2, _, _, _, houts⟩
  rw [hres] at hres2
  injection hres2 with heq
  subst heq
  rw [houts]
  exact ⟨aggregateOutputs_length _ _ _, aggregateOutputs_entry_length _ _ _⟩

/-- Witness for C1: the spec's own scenario — two examples, two repetitions
each, an echoing pipeline — yields two entries of two outcomes each. -/
theorem batch_outputs_cover_every_example_witness :
    resolveDataset [("calc", calcExamples)] "calc" = some calcExamples ∧
    arun_on_dataset [("calc", calcExamples)] [] "calc" echoFactory "A" "t"
      1 2 (some "p") [] = Except.ok (calcBatchResult, calcSinkLog) ∧
    calcBatchResult.outputs.length = calcExamples.length ∧
    ∀ e ∈ calcBatchResult.outputs, e.2.length = 2 := by
  refine ⟨rfl, rfl, ?_⟩
  exact batch_outputs_cover_every_example [("calc", calcExamples)] []
    "calc" echoFactory "A" "t" 1 2 (some "p") [] calcExamples
    calcBatchResult calcSinkLog rfl rfl

/-- C2: a raising pipeline invocation is recorded as a Failure run for that
single (example, repetition) item, and every sibling example's aggregated
entry still consists of its own per-repetition outcomes, unaffected by the
failing item. -/
theorem failure_contained_to_single_item {σ : Type}
    (factory : Unit → Pipeline σ) (pn : String) (examples : List Example)
    (numReps : Nat) (ex : Example) (d : String)
    (hnodup : (examples.map Example.id).Nodup) (hmem : ex ∈ examples)
    (hn : 0 < numReps)
    (hraise : (factory ()).invoke (factory ()).init ex.inputs =
      Except.error d) :
    (∃ run ∈ buildRuns factory pn examples numReps,
        run.example_id = ex.id ∧ run.repetition_index = 0 ∧
        run.outcome = Outcome.failure d) ∧
    ∀ ex2 ∈ examples,
      (ex2.id, (List.range numReps).map (fun _ => itemOutcome factory ex2)) ∈
        aggregateOutputs (buildRuns factory pn examples numReps) examples
          numReps := by
  constructor
  · rcases buildRunsFrom_find? factory pn numReps examples 0 hnodup ex hmem 0 hn
      with ⟨base, hbase⟩
    refine ⟨_, List.mem_of_find?_eq_some hbase, rfl, rfl, ?_⟩
    simp [itemOutcome, hraise]
  · intro ex2 hmem2
    exact aggregateOutputs_entry factory pn examples numReps hnodup ex2 hmem2

/-- Witness for C2: the spec's scenario — ten examples of which exactly
item 3 raises — still produces ten runs, nine Success and one Failure. -/
theorem failure_contained_to_single_item_witness :
    (tenExamples.map Example.id).Nodup ∧
    ({ id := 3, inputs := [("q", "boom")], reference_outputs := none } :
        Example) ∈ tenExamples ∧
    (boomFactory ()).invoke (boomFactory ()).init
        [("q", "boom")] = Except.error "boom" ∧
    (∃ run ∈ buildRuns boomFactory "p" tenExamples 1,
        run.example_id = 3 ∧ run.repetition_index = 0 ∧
        run.outcome = Outcome.failure "boom") ∧
    (buildRuns boomFactory "p" tenExamples 1).length = 10 ∧
    ((buildRuns boomFactory "p" tenExamples 1).filter
        (fun r => isFailureOutcome r.outcome)).length = 1 ∧
    ((buildRuns boomFactory "p" tenExamples 1).filter
        (fun r => !isFailureOutcome r.outcome)).length = 9 := by
  refine ⟨by decide, by decide, rfl, ?_, by decide, by decide, by decide⟩
  exact (failure_contained_to_single_item boomFactory "p" tenExamples 1
    { id := 3, inputs := [("q", "boom")], reference_outputs := none } "boom"
    (by decide) (by decide) (by decide) rfl).1

/-- C3: in every state a batch execution can reach, at most
concurrency_level pipeline invocations are in flight simultaneously, for
any concurrency_level at least 1 and any number of work items — an item
beyond the bound can only start once a slot frees. -/
theorem at_most_concurrency_level_in_flight (c : Nat)
    (items : List (Nat × Nat)) (s : SchedState) (_hc : 1 ≤ c)
    (hs : SchedReachable c items s) : s.running.length ≤ c := by
  induction hs with
  | refl => exact Nat.zero_le c
  | step hs hst ih =>
    cases hst with
    | start w s2 hw hcl => simpa using hcl
    | finish w s2 hw =>
      exact le_trans (List.erase_sublist _ _).length_le ih

/-- C4: for every Run of a completed batch whose outcome is Failure, no
feedback record referencing that Run is ever created; every feedback
record references a run of the batch whose outcome is Success. -/
theorem no_feedback_for_failed_runs {σ : Type}
    (datasets : List (String × List Example)) (existingProjects : List String)
    (dataset_name : String) (factory : Unit → Pipeline σ)
    (chainTypeName datetime : String)
    (concurrency_level num_repetitions : Nat) (project_name : Option String)
    (evaluators : List Evaluator) (br : BatchResult) (log : SinkLog)
    (h : arun_on_dataset datasets existingProjects dataset_name factory
      chainTypeName datetime concurrency_level num_repetitions project_name
      evaluators = Except.ok (br, log)) :
    (∀ r ∈ log.runs, ∀ d, r.outcome = Outcome.failure d →
      ∀ rec ∈ log.records, ∀ fb, rec = EvalRecord.feedback fb →
        fb.run_id ≠ r.id) ∧
    ∀ rec ∈ log.records, ∀ fb, rec = EvalRecord.feedback fb →
      ∃ r ∈ log.runs, fb.run_id = r.id ∧
        ∃ outs, r.outcome = Outcome.success outs := by
  rcases arun_on_dataset_ok_inv datasets existingProjects dataset_name factory
    chainTypeName datetime concurrency_level num_repetitions project_name
    evaluators br log h with ⟨examples, _, _, hruns, hrecs, _⟩
  have hinv : ∀ rec ∈ log.records, ∀ fb, rec = EvalRecord.feedback fb →
      ∃ r ∈ log.runs, fb.run_id = r.id ∧
        ∃ outs, r.outcome = Outcome.success outs := by
    intro rec hrec fb hfb
    subst hfb
    exact evalRecordsFor_feedback_inv evaluators examples log.runs fb
      (hrecs ▸ hrec)
  refine ⟨?_, hinv⟩
  intro r hr d hfail rec hrec fb hfb heq
  rcases hinv rec hrec fb hfb with ⟨r2, hr2, hid, outs, hsucc⟩
  have hrr : r2 = r := by
    refine buildRuns_id_inj factory br.project_name examples num_repetitions
      (hruns ▸ hr2) (hruns ▸ hr) ?_
    rw [← hid, heq]
  rw [hrr, hfail] at hsucc
  cases hsucc

/-- Witness for C4: a batch whose single run fails, evaluated with the
reference-comparison evaluator, records no feedback at all. -/
theorem no_feedback_for_failed_runs_witness :
    arun_on_dataset [("ds", failExamples)] [] "ds" alwaysFailFactory "A" "t"
      1 1 (some "p") [qaEvaluator] =
      Except.ok (failBatchResult, failSinkLog) ∧
    ∀ r ∈ failSinkLog.runs, ∀ d, r.outcome = Outcome.failure d →
      ∀ rec ∈ failSinkLog.records, ∀ fb, rec = EvalRecord.feedback fb →
        fb.run_id ≠ r.id := by
  refine ⟨rfl, ?_⟩
  exact (no_feedback_for_failed_runs [("ds", failExamples)] [] "ds"
    alwaysFailFactory "A" "t" 1 1 (some "p") [qaEvaluator]
    failBatchResult failSinkLog rfl).1

/-- C5: every work item's recorded outcome is computed from a pipeline
freshly obtained from the factory, starting at the factory's initial
state, so two repetitions of the same example observe the same independent
initial state and no state leaks between items. -/
theorem fresh_pipeline_per_work_item {σ : Type} (factory : Unit → Pipeline σ)
    (pn : String) (examples : List Example) (numReps : Nat) (ex : Example)
    (i j : Nat) (hnodup : (examples.map Example.id).Nodup)
    (hmem : ex ∈ examples) (hi : i < numReps) (hj : j < numReps) :
    ∃ outs : List Outcome,
      (ex.id, outs) ∈ aggregateOutputs (buildRuns factory pn examples numReps)
        examples numReps ∧
      outs[i]? = some (itemOutcome factory ex) ∧
      outs[j]? = some (itemOutcome factory ex) ∧
      itemOutcome factory ex =
        (match (factory ()).invoke (factory ()).init ex.inputs with
         | Except.ok res => Outcome.success res.1
         | Except.error e => Outcome.failure e) := by
  refine ⟨(List.range numReps).map (fun _ => itemOutcome factory ex),
    aggregateOutputs_entry factory pn examples numReps hnodup ex hmem,
    ?_, ?_, rfl⟩
  · rw [List.getElem?_map, List.getElem?_range hi]
    rfl
  · rw [List.getElem?_map, List.getElem?_range hj]
    rfl

/-- Witness for C5: with a factory producing counter-carrying pipelines,
both repetitions of the same example observe counter 0. -/
theorem fresh_pipeline_per_work_item_witness :
    (0 : Nat) < 2 ∧ (1 : Nat) < 2 ∧
    itemOutcome counterFactory blankExample =
      Outcome.success [("counter", "0")] ∧
    ∃ outs : List Outcome,
      (blankExample.id, outs) ∈
        aggregateOutputs (buildRuns counterFactory "p" [blankExample] 2)
          [blankExample] 2 ∧
      outs[0]? = some (itemOutcome counterFactory blankExample) ∧
      outs[1]? = some (itemOutcome counterFactory blankExample) := by
  refine ⟨by decide, by decide, rfl, ?_⟩
  rcases fresh_pipeline_per_work_item counterFactory "p" [blankExample] 2
    blankExample 0 1 (by decide) (by decide) (by decide) (by decide)
    with ⟨outs, hout, h0, h1, _⟩
  exact ⟨outs, hout, h0, h1⟩

/-- C6: a dataset name that does not resolve fails the call with
DatasetNotFound and nothing runs, while a dataset resolving to zero
examples yields a successful call with an empty BatchResult and an empty
sink log. -/
theorem dataset_not_found_and_empty_dataset {σ : Type}
    (datasets : List (String × List Example)) (existingProjects : List String)
    (dataset_name : String) (factory : Unit → Pipeline σ)
    (chainTypeName datetime : String)
    (concurrency_level num_repetitions : Nat) (project_name : Option String)
    (evaluators : List Evaluator) :
    (resolveDataset datasets dataset_name = none →
      arun_on_dataset datasets existingProjects dataset_name factory
        chainTypeName datetime concurrency_level num_repetitions project_name
        evaluators = Except.error (RunnerError.datasetNotFound dataset_name)) ∧
    (resolveDataset datasets dataset_name = some [] →
      existingProjects.contains
        (usedProjectName project_name dataset_name chainTypeName datetime) =
          false →
      arun_on_dataset datasets existingProjects dataset_name factory
        chainTypeName datetime concurrency_level num_repetitions project_name
        evaluators =
        Except.ok
          ({ project_name := usedProjectName project_name dataset_name
               chainTypeName datetime, outputs := [] },
           { runs := [], records := [] })) := by
  constructor
  · intro hres
    simp [arun_on_dataset, hres]
  · intro hres hcol
    rw [arun_on_dataset_ok datasets existingProjects dataset_name factory
      chainTypeName datetime concurrency_level num_repetitions project_name
      evaluators [] hres hcol]
    rfl

/-- Witness for C6: an unknown dataset name fails with DatasetNotFound; an
empty dataset returns an empty successful result. -/
theorem dataset_not_found_and_empty_dataset_witness :
    resolveDataset [("other", calcExamples)] "missing" = none ∧
    arun_on_dataset [("other", calcExamples)] [] "missing" echoFactory "A"
      "t" 5 1 none [] =
      Except.error (RunnerError.datasetNotFound "missing") ∧
    resolveDataset [("empty", ([] : List Example))] "empty" = some [] ∧
    arun_on_dataset [("empty", ([] : List Example))] [] "empty" echoFactory
      "A" "t" 5 1 none [] =
      Except.ok ({ project_name := usedProjectName none "empty" "A" "t",
                   outputs := [] }, { runs := [], records := [] }) := by
  refine ⟨rfl, ?_, rfl, ?_⟩
  · exact (dataset_not_found_and_empty_dataset [("other", calcExamples)] []
      "missing" echoFactory "A" "t" 5 1 none []).1 rfl
  · exact (dataset_not_found_and_empty_dataset [("empty", [])] [] "empty"
      echoFactory "A" "t" 5 1 none []).2 rfl rfl

/-- C7: when project_name is not supplied the Runner uses the generated
name combining the dataset name, the pipeline's type name and the
timestamp; and whenever the supplied-or-generated name already exists, the
call fails fast with ProjectExists instead of merging into the existing
project. -/
theorem project_name_default_and_collision {σ : Type}
    (datasets : List (String × List Example)) (existingProjects : List String)
    (dataset_name : String) (factory : Unit → Pipeline σ)
    (chainTypeName datetime : String)
    (concurrency_level num_repetitions : Nat) (project_name : Option String)
    (evaluators : List Evaluator) (examples : List Example) :
    (usedProjectName none dataset_name chainTypeName datetime =
      dataset_name ++ "-" ++ chainTypeName ++ "-" ++ datetime) ∧
    (resolveDataset datasets dataset_name = some examples →
      existingProjects.contains
        (usedProjectName project_name dataset_name chainTypeName datetime) =
          true →
      arun_on_dataset datasets existingProjects dataset_name factory
        chainTypeName datetime concurrency_level num_repetitions project_name
        evaluators =
        Except.error (RunnerError.projectExists
          (usedProjectName project_name dataset_name chainTypeName
            datetime))) := by
  constructor
  · rfl
  · intro hres hcol
    have hmem : usedProjectName project_name dataset_name chainTypeName
        datetime ∈ existingProjects := by
      simpa using hcol
    simp [arun_on_dataset, hres, hmem]

/-- Witness for C7: the generated default name concatenates the parts, and
a supplied name that already exists fails the call fast. -/
theorem project_name_default_and_collision_witness :
    usedProjectName none "calc" "AgentExecutor" "20230711" =
      "calc" ++ "-" ++ "AgentExecutor" ++ "-" ++ "20230711" ∧
    resolveDataset [("calc", calcExamples)] "calc" = some calcExamples ∧
    ["taken"].contains (usedProjectName (some "taken") "calc" "A" "t") =
      true ∧
    arun_on_dataset [("calc", calcExamples)] ["taken"] "calc" echoFactory
      "A" "t" 5 1 (some "taken") [] =
      Except.error (RunnerError.projectExists
        (usedProjectName (some "taken") "calc" "A" "t")) := by
  refine ⟨rfl, rfl, rfl, ?_⟩
  exact (project_name_default_and_collision [("calc", calcExamples)]
    ["taken"] "calc" echoFactory "A" "t" 5 1 (some "taken") []
    calcExamples).2 rfl rfl

/-- C8: an evaluator that raises on a successful run is recorded as an
error for that single (run, evaluator) pair, every evaluator still
executes, evaluators that return normally still produce their feedback,
and the batch's runs — hence each Run's outcome — are identical with and
without the evaluator set. -/
theorem evaluator_failure_scoped (evaluators : List Evaluator)
    (e : Evaluator) (run : Run) (ex : Example) (outs : KVMap) (d : String)
    (hsucc : run.outcome = Outcome.success outs) (hmem : e ∈ evaluators)
    (herr : e.evaluate run ex = Except.error d) :
    EvalRecord.evalError run.id e.name d ∈ evaluateRun evaluators run ex ∧
    (evaluateRun evaluators run ex).length = evaluators.length ∧
    (∀ e2 ∈ evaluators, ∀ fd, e2.evaluate run ex = Except.ok fd →
      EvalRecord.feedback { run_id := run.id, evaluator_name := e2.name,
                            score := fd.score, value := fd.value,
                            comment := fd.comment } ∈
        evaluateRun evaluators run ex) ∧
    ∀ (σ : Type) (datasets : List (String × List Example))
      (existingProjects : List String) (dataset_name : String)
      (factory : Unit → Pipeline σ) (chainTypeName datetime : String)
      (concurrency_level num_repetitions : Nat)
      (project_name : Option String),
      (arun_on_dataset datasets existingProjects dataset_name factory
          chainTypeName datetime concurrency_level num_repetitions
          project_name evaluators).map (fun out => out.2.runs) =
      (arun_on_dataset datasets existingProjects dataset_name factory
          chainTypeName datetime concurrency_level num_repetitions
          project_name []).map (fun out => out.2.runs) := by
  refine ⟨?_, ?_, ?_, ?_⟩
  · simp only [evaluateRun, hsucc]
    refine List.mem_map.mpr ⟨e, hmem, ?_⟩
    rw [herr]
  · simp only [evaluateRun, hsucc]
    exact List.length_map _ _
  · intro e2 hmem2 fd hok
    simp only [evaluateRun, hsucc]
    refine List.mem_map.mpr ⟨e2, hmem2, ?_⟩
    rw [hok]
  · intro σ2 datasets existingProjects dataset_name factory chainTypeName
      datetime concurrency_level num_repetitions project_name
    cases hres : resolveDataset datasets dataset_name with
    | none => simp [arun_on_dataset, hres]
    | some examples =>
      cases hcol : existingProjects.contains
          (usedProjectName project_name dataset_name chainTypeName
            datetime) with
      | true =>
        have hm : usedProjectName project_name dataset_name chainTypeName
            datetime ∈ existingProjects := by simpa using hcol
        simp [arun_on_dataset, hres, hm]
      | false =>
        have hcond : ¬(existingProjects.contains
            (usedProjectName project_name dataset_name chainTypeName
              datetime) = true) := by
          rw [hcol]
          exact Bool.false_ne_true
        simp only [arun_on_dataset, hres]
        rw [if_neg hcond, if_neg hcond]
        rfl

/-- Witness for C8: the reference-comparison evaluator applied to an
example lacking reference_outputs raises; its failure is recorded for that
single pair while both evaluators still execute. -/
theorem evaluator_failure_scoped_witness :
    successRun.outcome = Outcome.success [("a", "4")] ∧
    qaEvaluator.evaluate successRun blankExample =
      Except.error "example has no reference_outputs" ∧
    EvalRecord.evalError successRun.id qaEvaluator.name
      "example has no reference_outputs" ∈
      evaluateRun [qaEvaluator, okEvaluator] successRun blankExample ∧
    (evaluateRun [qaEvaluator, okEvaluator] successRun
      blankExample).length = 2 := by
  have h := evaluator_failure_scoped [qaEvaluator, okEvaluator] qaEvaluator
    successRun blankExample [("a", "4")] "example has no reference_outputs"
    rfl (List.mem_cons_self qaEvaluator [okEvaluator]) rfl
  exact ⟨rfl, rfl, h.1, h.2.1⟩

/-- Witness for C3: with bound 1 and one work item, the state reached after
starting the item keeps at most one invocation in flight. -/
theorem at_most_concurrency_level_in_flight_witness :
    1 ≤ 1 ∧
    ({ pending := [((0 : Nat), (0 : Nat))].erase (0, 0), running := [(0, 0)],
       done := [] } : SchedState).running.length ≤ 1 := by
  refine ⟨le_refl 1,
    at_most_concurrency_level_in_flight 1 [(0, 0)] _ (le_refl 1) ?_⟩
  exact SchedReachable.step SchedReachable.refl
    (SchedStep.start (0, 0) (schedInit [(0, 0)]) (by simp [schedInit])
      (by simp [schedInit]))

end TracingDatasets
